import Mathlib

set_option maxRecDepth 8000
set_option maxHeartbeats 1000000

/-!
Verification development for the Arrow cell display-formatting engine
(`format` and its specialized formatters, source file `part_006`).

The engine takes a decoded cell value, a logical type descriptor
(`pandas_type` / `numpy_type` pair) and optional physical field metadata, and
renders a display string.  JavaScript runtime values are modelled as follows:

* JS `number` is modelled as an exact rational plus the three non-finite
  values (`NaN`, `Infinity`, `-Infinity`).  IEEE-754 rounding of individual
  arithmetic operations is not modelled; every claim settled here is about
  branch structure and digit-string construction, not about float rounding.
* JS `bigint` is modelled as `ℤ`.
* Library functions from the runtime and from moment/numbro/lodash
  (`String(...)`, `JSON.parse`, `JSON.stringify`, calendar arithmetic,
  `"0,0.0000"` number formatting, `trimEnd`, `padStart`) are modelled by
  their documented behavior; each model is marked by a comment at its
  definition.
* A thrown JS exception is modelled as the `Except.error` case; ordinary
  returns are `Except.ok`.
-/

/-- Model of a JS `number`: an exact rational or one of the non-finite values. -/
inductive JsNum where
  | finite (q : ℚ)
  | nan
  | posInf
  | negInf
deriving DecidableEq, Repr

/-- Model of a thrown JS exception (`Error`, `TypeError`, `SyntaxError`). -/
inductive JsErr where
  | error (msg : String)
  | typeError (msg : String)
  | syntaxError (msg : String)
deriving DecidableEq, Repr

/-- Largest integer magnitude exactly representable in a JS number
(`Number.MAX_SAFE_INTEGER`). -/
def maxSafeInteger : ℕ := 2 ^ 53 - 1

/-- Model of `Number.isFinite` on a JS number. -/
def JsNum.isFinite : JsNum → Bool
  | .finite _ => true
  | _ => false

/-- Model of `Number.isSafeInteger` on a JS number. -/
def jsIsSafeInteger : JsNum → Bool
  | .finite q => q.den == 1 && q.num.natAbs ≤ maxSafeInteger
  | _ => false

/-- Exact division of a rational by a positive integer, written with `mkRat`
so that concrete instances reduce inside `decide` (`Rat.div` itself is
irreducible); agrees with `q / c`, see `ratDivNat_eq`. -/
def ratDivNat (q : ℚ) (c : ℕ) : ℚ := mkRat q.num (q.den * c)

/-- Division of a JS number by a positive integer constant
(the `unitAdjustment` divisors 1000, 1000000, 1000000000). -/
def JsNum.divNat : JsNum → ℕ → JsNum
  | .finite q, c => .finite (ratDivNat q c)
  | .nan, _ => .nan
  | .posInf, _ => .posInf
  | .negInf, _ => .negInf

/-- Truncation of a rational toward zero, as JS `Date` does with a
fractional time value. -/
def ratTrunc (q : ℚ) : ℤ := Int.tdiv q.num (q.den : ℤ)

/-- Truncation of `q * m` toward zero (`m` a positive integer scale). -/
def ratTruncMul (q : ℚ) (m : ℕ) : ℤ := Int.tdiv (q.num * m) (q.den : ℤ)

/-- Model of JS `Math.round` applied to `q / d` (`d` a positive integer):
round half toward positive infinity. -/
def jsRoundDiv (q : ℚ) (d : ℕ) : ℤ :=
  Int.fdiv (2 * q.num + (d : ℤ) * (q.den : ℤ)) (2 * ((d : ℤ) * (q.den : ℤ)))

/-- Model of JS `Math.round` applied to `q * m` (`m` a positive integer). -/
def jsRoundMul (q : ℚ) (m : ℕ) : ℤ :=
  Int.fdiv (2 * q.num * m + (q.den : ℤ)) (2 * (q.den : ℤ))

/-- Model of JS `Math.round`. -/
def jsRound (q : ℚ) : ℤ := jsRoundMul q 1

/-- Left-pad a string with a fill character to at least `n` characters
(model of `String.prototype.padStart`). -/
def jsPadStart (s : String) (n : ℕ) (c : Char) : String :=
  if s.length ≥ n then s
  else String.mk (List.replicate (n - s.length) c) ++ s

/-- Model of JS `s.slice(0, -k)` for `k ≥ 1`: all but the last `k`
characters (empty if `k ≥ length`). -/
def jsSliceDropLast (s : String) (k : ℕ) : String :=
  String.mk (s.toList.take (s.length - k))

/-- Model of JS `s.slice(-k)` for `k ≥ 1`: the last `min k length`
characters. -/
def jsSliceLast (s : String) (k : ℕ) : String :=
  String.mk (s.toList.drop (s.length - k))

/-- Prefix test on strings by character list (equivalent to
`String.startsWith`, written so that concrete instances reduce). -/
def strStartsWith (s p : String) : Bool :=
  s.toList.take p.toList.length == p.toList

/-- Drop the first `k` characters of a string (equivalent to `String.drop`,
written so that concrete instances reduce). -/
def strDrop (s : String) (k : ℕ) : String := String.mk (s.toList.drop k)

/-- Model of lodash `trimEnd(s, "0")`: remove trailing `'0'` characters. -/
def trimEndZeros (s : String) : String :=
  String.mk (((s.toList.reverse).dropWhile (fun c => c == '0')).reverse)

/-- Decimal digit characters of a natural number. -/
def natDigitsString (n : ℕ) : String := toString n

/-- Left-pad the decimal form of a natural number with zeros to `k` digits. -/
def padNat (n : ℕ) (k : ℕ) : String := jsPadStart (toString n) k '0'

/-- Fractional decimal digits of `num/den` (`0 ≤ num < den`), stopping when the
remainder is zero; `fuel` caps the number of digits produced.  This models the
digits JS printing produces for a number whose value has a terminating decimal
expansion (the only case exercised by the theorems below). -/
def fracDigits : ℕ → ℕ → ℕ → List Char
  | 0, _, _ => []
  | _, 0, _ => []
  | fuel + 1, n, d =>
    let n10 := n * 10
    Char.ofNat (48 + n10 / d) :: fracDigits fuel (n10 % d) d

/-- Model of JS `String(x)` / `Number.prototype.toString` for a JS number.
Exact for values with a terminating decimal expansion of at most 100 digits;
the exponential notation JS uses beyond `1e21` is not modelled. -/
def jsNumToString (n : JsNum) : String :=
  match n with
  | .nan => "NaN"
  | .posInf => "Infinity"
  | .negInf => "-Infinity"
  | .finite q =>
    let sign := if q.num < 0 then "-" else ""
    let ip : ℕ := q.num.natAbs / q.den
    let rem : ℕ := q.num.natAbs % q.den
    let frac := fracDigits 100 rem q.den
    sign ++ toString ip ++ (if frac.isEmpty then "" else "." ++ String.mk frac)

/-- Group the decimal digits of a digit string with commas every three
characters from the right (the `0,0` part of numbro format `"0,0.0000"`). -/
def groupThousands (s : String) : String :=
  let cs := s.toList
  let n := cs.length
  String.mk
    (((List.range n).zip cs).map
      (fun p => if p.1 ≠ 0 && (n - p.1) % 3 == 0 then [',', p.2] else [p.2])).flatten

/-- Model of `numbro(num).format("0,0.0000")`: round to four fractional
digits, group the whole part with thousands separators, always print exactly
four fractional digits. -/
def numbroFormat4 (q : ℚ) : String :=
  let scaled := jsRoundMul q 10000
  let sign := if scaled < 0 then "-" else ""
  let a := scaled.natAbs
  sign ++ groupThousands (toString (a / 10000)) ++ "." ++ padNat (a % 10000) 4

/-! ## Calendar arithmetic (model of moment.js date handling)

Days are counted from the Unix epoch 1970-01-01 (day 0, a Thursday).
`civilFromDays` is the standard proleptic-Gregorian conversion. -/

/-- Convert a day number (days since 1970-01-01) to `(year, month, day)` in
the proleptic Gregorian calendar. -/
def civilFromDays (z0 : ℤ) : ℤ × ℤ × ℤ :=
  let z := z0 + 719468
  let era := Int.fdiv z 146097
  let doe := z - era * 146097
  let yoe := Int.fdiv (doe - Int.fdiv doe 1460 + Int.fdiv doe 36524 - Int.fdiv doe 146096) 365
  let y := yoe + era * 400
  let doy := doe - (365 * yoe + Int.fdiv yoe 4 - Int.fdiv yoe 100)
  let mp := Int.fdiv (5 * doy + 2) 153
  let d := doy - Int.fdiv (153 * mp + 2) 5 + 1
  let m := mp + (if mp < 10 then 3 else -9)
  (y + (if m ≤ 2 then 1 else 0), m, d)

/-- Render a year as moment's `YYYY` token (zero-padded to four digits,
negative years keep a leading minus). -/
def fmtYear (y : ℤ) : String :=
  (if y < 0 then "-" else "") ++ padNat y.natAbs 4

/-- Two-digit zero-padded field. -/
def pad2 (n : ℤ) : String := padNat n.natAbs 2

/-- Three-digit zero-padded field. -/
def pad3 (n : ℤ) : String := padNat n.natAbs 3

/-- Render a day number as moment's `YYYY-MM-DD`. -/
def fmtYMD (days : ℤ) : String :=
  let c := civilFromDays days
  fmtYear c.1 ++ "-" ++ pad2 c.2.1 ++ "-" ++ pad2 c.2.2

/-- Day number of an epoch-milliseconds instant (floor division, as JS
`Date` UTC accessors behave). -/
def dayOfMs (ms : ℤ) : ℤ := Int.fdiv ms 86400000

/-- Millisecond of day of an epoch-milliseconds instant. -/
def msOfDay (ms : ℤ) : ℤ := Int.emod ms 86400000

/-- Render an epoch-milliseconds instant as `HH:mm`. -/
def fmtHM (ms : ℤ) : String :=
  let r := msOfDay ms
  pad2 (Int.fdiv r 3600000) ++ ":" ++ pad2 (Int.emod (Int.fdiv r 60000) 60)

/-- Render an epoch-milliseconds instant as `HH:mm:ss`. -/
def fmtHMS (ms : ℤ) : String :=
  fmtHM ms ++ ":" ++ pad2 (Int.emod (Int.fdiv (msOfDay ms) 1000) 60)

/-- Render an epoch-milliseconds instant as `HH:mm:ss.SSS`. -/
def fmtHMSms (ms : ℤ) : String :=
  fmtHMS ms ++ "." ++ pad3 (Int.emod (msOfDay ms) 1000)

/-- Render an epoch-milliseconds instant as `YYYY-MM-DD HH:mm:ss`. -/
def fmtYMDHMS (ms : ℤ) : String := fmtYMD (dayOfMs ms) ++ " " ++ fmtHMS ms

/-- Render an epoch-milliseconds instant as `YYYY-MM-DD HH:mm`. -/
def fmtYMDHM (ms : ℤ) : String := fmtYMD (dayOfMs ms) ++ " " ++ fmtHM ms

/-- Render an epoch-milliseconds instant as `YYYY-MM-DD HH:mm:ss.SSS`. -/
def fmtYMDHMSms (ms : ℤ) : String := fmtYMD (dayOfMs ms) ++ " " ++ fmtHMSms ms

/-- Day of week of a day number, `0 = Sunday .. 6 = Saturday` (1970-01-01 is
a Thursday, weekday 4); this is what moment's `.day()` getter returns. -/
def weekdayOfDay (days : ℤ) : ℤ := (days + 4) % 7

/-- Model of moment's `.day(n)` setter (locale `en`, week starts Sunday):
move to day-of-week `n` of the current week, where `n` outside `0..6`
reaches into adjacent weeks. -/
def momentSetDay (days : ℤ) (n : ℤ) : ℤ := days + (n - weekdayOfDay days)

/-- ISO-8601 rendering of an epoch-milliseconds instant
(model of `Date.prototype.toISOString`, used by `Date.prototype.toJSON`). -/
def dateToISOString (ms : ℤ) : String :=
  fmtYMD (dayOfMs ms) ++ "T" ++ fmtHMSms ms ++ "Z"

/-! ## JSON values and `JSON.parse` -/

/-- Parsed JSON value (result of `JSON.parse`). -/
inductive JVal where
  | jnull
  | jbool (b : Bool)
  | jnum (q : ℚ)
  | jstr (s : String)
  | jarr (elems : List JVal)
  | jobj (fields : List (String × JVal))

/-- Property access `j[k]` on a parsed JSON value: a field of an object,
`undefined` (`none`) otherwise. -/
def jprop (j : JVal) (k : String) : Option JVal :=
  match j with
  | .jobj fields => fields.lookup k
  | _ => none

/-- JSON whitespace. -/
def isJsonWs (c : Char) : Bool :=
  c == ' ' || c == '\t' || c == '\n' || c == '\r'

/-- Skip JSON whitespace. -/
def skipWs (cs : List Char) : List Char := cs.dropWhile isJsonWs

/-- Parse the digits of a natural number; returns the value, the number of
digits consumed and the rest. -/
def parseDigits : List Char → ℕ → ℕ → (ℕ × ℕ × List Char)
  | c :: cs, acc, cnt =>
    if c.isDigit then parseDigits cs (acc * 10 + (c.toNat - 48)) (cnt + 1)
    else (acc, cnt, c :: cs)
  | [], acc, cnt => (acc, cnt, [])

/-- Parse a JSON string body after the opening quote (simple escapes and
`\uXXXX` are supported); returns the string and the rest on success. -/
def parseJsonStringBody : ℕ → List Char → Option (String × List Char)
  | 0, _ => none
  | _, [] => none
  | fuel + 1, c :: cs =>
    if c == '"' then some ("", cs)
    else if c == '\\' then
      match cs with
      | [] => none
      | e :: cs2 =>
        let esc? : Option (Char × List Char) :=
          if e == 'n' then some ('\n', cs2)
          else if e == 't' then some ('\t', cs2)
          else if e == 'r' then some ('\r', cs2)
          else if e == 'b' then some (Char.ofNat 8, cs2)
          else if e == 'f' then some (Char.ofNat 12, cs2)
          else if e == '"' || e == '\\' || e == '/' then some (e, cs2)
          else if e == 'u' then
            match cs2 with
            | h1 :: h2 :: h3 :: h4 :: cs3 =>
              let hex? (c : Char) : Option ℕ :=
                if c.isDigit then some (c.toNat - 48)
                else if 'a' ≤ c ∧ c ≤ 'f' then some (c.toNat - 87)
                else if 'A' ≤ c ∧ c ≤ 'F' then some (c.toNat - 55)
                else none
              match hex? h1, hex? h2, hex? h3, hex? h4 with
              | some a, some b, some c4, some d =>
                some (Char.ofNat (((a * 16 + b) * 16 + c4) * 16 + d), cs3)
              | _, _, _, _ => none
            | _ => none
          else none
        match esc? with
        | none => none
        | some (ch, rest) =>
          match parseJsonStringBody fuel rest with
          | some (s, rest2) => some (String.mk [ch] ++ s, rest2)
          | none => none
    else
      match parseJsonStringBody fuel cs with
      | some (s, rest) => some (String.mk [c] ++ s, rest)
      | none => none

mutual

/-- Parse one JSON value; `fuel` bounds the recursion. -/
def parseJsonVal : ℕ → List Char → Option (JVal × List Char)
  | 0, _ => none
  | fuel + 1, cs0 =>
    match skipWs cs0 with
    | [] => none
    | c :: cs =>
      if c == 'n' then
        match cs with
        | 'u' :: 'l' :: 'l' :: rest => some (.jnull, rest)
        | _ => none
      else if c == 't' then
        match cs with
        | 'r' :: 'u' :: 'e' :: rest => some (.jbool true, rest)
        | _ => none
      else if c == 'f' then
        match cs with
        | 'a' :: 'l' :: 's' :: 'e' :: rest => some (.jbool false, rest)
        | _ => none
      else if c == '"' then
        match parseJsonStringBody (cs.length + 1) cs with
        | some (s, rest) => some (.jstr s, rest)
        | none => none
      else if c == '[' then
        match skipWs cs with
        | ']' :: rest => some (.jarr [], rest)
        | cs2 => match parseJsonElems fuel cs2 with
          | some (es, rest) => some (.jarr es, rest)
          | none => none
      else if c == '\x7b' then
        match skipWs cs with
        | '\x7d' :: rest => some (.jobj [], rest)
        | cs2 => match parseJsonMembers fuel cs2 with
          | some (fs, rest) => some (.jobj fs, rest)
          | none => none
      else if c == '-' || c.isDigit then
        let (sign, cs1) : ℤ × List Char := if c == '-' then (-1, cs) else (1, c :: cs)
        match cs1 with
        | d :: _ =>
          if d.isDigit then
            let (ip, _, cs2) := parseDigits cs1 0 0
            match cs2 with
            | '.' :: cs3 =>
              let (fp, fcnt, cs4) := parseDigits cs3 0 0
              if fcnt = 0 then none
              else some (.jnum (mkRat (sign * (ip * 10 ^ fcnt + fp)) (10 ^ fcnt)), cs4)
            | _ => some (.jnum (mkRat (sign * ip) 1), cs2)
          else none
        | [] => none
      else none

/-- Parse one-or-more comma-separated array elements and the closing `]`. -/
def parseJsonElems : ℕ → List Char → Option (List JVal × List Char)
  | 0, _ => none
  | fuel + 1, cs =>
    match parseJsonVal fuel cs with
    | none => none
    | some (v, rest) =>
      match skipWs rest with
      | ',' :: rest2 =>
        match parseJsonElems fuel rest2 with
        | some (vs, rest3) => some (v :: vs, rest3)
        | none => none
      | ']' :: rest2 => some ([v], rest2)
      | _ => none

/-- Parse one-or-more `"key": value` members and the closing brace. -/
def parseJsonMembers : ℕ → List Char → Option (List (String × JVal) × List Char)
  | 0, _ => none
  | fuel + 1, cs =>
    match skipWs cs with
    | '"' :: cs1 =>
      match parseJsonStringBody (cs1.length + 1) cs1 with
      | none => none
      | some (k, rest) =>
        match skipWs rest with
        | ':' :: rest1 =>
          match parseJsonVal fuel rest1 with
          | none => none
          | some (v, rest2) =>
            match skipWs rest2 with
            | ',' :: rest3 =>
              match parseJsonMembers fuel rest3 with
              | some (fs, rest4) => some ((k, v) :: fs, rest4)
              | none => none
            | '\x7d' :: rest3 => some ([(k, v)], rest3)
            | _ => none
        | _ => none
    | _ => none

end

/-- Model of `JSON.parse`: parse a complete JSON text, throwing a
`SyntaxError` on malformed input. -/
def jsonParse (s : String) : Except JsErr JVal :=
  match parseJsonVal (s.length + 1) s.toList with
  | some (v, rest) =>
    if (skipWs rest).isEmpty then .ok v
    else .error (.syntaxError "Unexpected token in JSON")
  | none => .error (.syntaxError "Unexpected token in JSON")

/-! ## Cell values, type descriptors and field metadata -/

/-- Logical type descriptor attached to a column
(`Type` in `arrowTypeUtils`): a `pandas_type` / `numpy_type` string pair. -/
structure TypeDescr where
  pandas_type : String
  numpy_type : String
deriving DecidableEq, Repr

/-- Modelled from the spec: the type classifier (`getTypeName`, in
`arrowTypeUtils`, whose source is not part of the provided files — only its
tests are).  Per spec section 4.1 the storage type is preferred exactly for
the cases that arrive with the generic logical tag `"object"` (period,
decimal, timedelta, dictionary-encoded, interval-with-subtype); otherwise the
logical type is used.  This matches every expectation in
`arrowTypeUtils.test.ts`. -/
def getTypeName (t : TypeDescr) : String :=
  if t.pandas_type = "object" then t.numpy_type else t.pandas_type

mutual

/-- Physical Arrow field type, as far as the formatter inspects it:
`instanceof` checks for `Struct` / `Float` / `Timestamp`, the temporal
`unit`, the timestamp `timezone`, the decimal `scale`, and struct
`children`. -/
inductive FieldType where
  | structT (children : List ArrowField)
  | floatT
  | timestampT (unit : ℕ) (timezone : Option String)
  | timeT (unit : ℕ)
  | durationT (unit : ℕ)
  | decimalT (scale : ℕ)
  | otherT

/-- Arrow `Field`: a metadata map (`field.metadata`) plus the physical type. -/
inductive ArrowField where
  | fieldMk (metadata : List (String × String)) (typ : FieldType)

end

/-- The metadata map of a field (`field.metadata.get k`). -/
def metaGet (f : ArrowField) (k : String) : Option String :=
  match f with
  | .fieldMk md _ => md.lookup k

/-- The physical type of a field. -/
def fieldTyp (f : ArrowField) : FieldType :=
  match f with
  | .fieldMk _ t => t

/-- Access `field?.type?.unit` (present on time, timestamp and duration
types). -/
def fieldUnit (f? : Option ArrowField) : Option ℕ :=
  match f? with
  | none => none
  | some f =>
    match fieldTyp f with
    | .timestampT u _ => some u
    | .timeT u => some u
    | .durationT u => some u
    | _ => none

/-- Access `field?.type?.timezone` (present on timestamp types). -/
def fieldTimezone (f? : Option ArrowField) : Option String :=
  match f? with
  | none => none
  | some f =>
    match fieldTyp f with
    | .timestampT _ tz => tz
    | _ => none

/-- Access `field?.type?.scale` (present on decimal types). -/
def fieldScale (f? : Option ArrowField) : Option ℕ :=
  match f? with
  | none => none
  | some f =>
    match fieldTyp f with
    | .decimalT s => some s
    | _ => none

/-- Children of `(field.type as Struct)` (`undefined`, i.e. `[]`, when the
type is not a struct). -/
def fieldChildren (f : ArrowField) : List ArrowField :=
  match fieldTyp f with
  | .structT cs => cs
  | _ => []

/-- Test `field?.type instanceof Struct`. -/
def isStructType (f? : Option ArrowField) : Bool :=
  match f? with
  | some f => match fieldTyp f with | .structT _ => true | _ => false
  | none => false

/-- Test `field?.type instanceof Float`. -/
def isFloatFieldType (f? : Option ArrowField) : Bool :=
  match f? with
  | some f => match fieldTyp f with | .floatT => true | _ => false
  | none => false

/-- Test `field?.type instanceof Timestamp`. -/
def isTimestampFieldType (f? : Option ArrowField) : Bool :=
  match f? with
  | some f => match fieldTyp f with | .timestampT _ _ => true | _ => false
  | none => false

/-- Decoded Arrow cell value (`DataType` in `arrowTypeUtils`): the runtime JS
values the formatter can receive.  `decimalBuf` is a `Uint32Array` of
little-endian 32-bit words (unscaled two's-complement decimal digits);
`structRow` is an Arrow `StructRow` seen through its property map;
`dateObj` is a JS `Date` holding epoch milliseconds. -/
inductive CellValue where
  | jsNull
  | undef
  | num (n : JsNum)
  | big (b : ℤ)
  | str (s : String)
  | boolV (b : Bool)
  | dateObj (ms : ℤ)
  | decimalBuf (words : List ℕ)
  | structRow (entries : List (String × CellValue))
  | arr (elems : List CellValue)

/-- Model of `isNullOrUndefined`. -/
def isNullOrUndefined : CellValue → Bool
  | .jsNull => true
  | .undef => true
  | _ => false

/-- Test for a JS `Date` instance. -/
def isDateObj : CellValue → Bool
  | .dateObj _ => true
  | _ => false

/-- Test `typeof x === "bigint"`. -/
def isBigIntValue : CellValue → Bool
  | .big _ => true
  | _ => false

/-- Model of `Number.isFinite(x)` on an arbitrary value (`false` unless `x`
is a finite JS number). -/
def cellIsFiniteNumber : CellValue → Bool
  | .num (.finite _) => true
  | _ => false

mutual

/-- Model of JS `String(x)` string coercion on cell values.  A `Date` prints
in the host-timezone long form; this model uses the UTC rendering.  Array
elements that are null or undefined join as empty strings
(`Array.prototype.join` semantics). -/
def jsString : CellValue → String
  | .jsNull => "null"
  | .undef => "undefined"
  | .num n => jsNumToString n
  | .big b => toString b
  | .str s => s
  | .boolV b => if b then "true" else "false"
  | .dateObj ms => dateToISOString ms
  | .decimalBuf ws => String.intercalate "," (ws.map (fun w => toString w))
  | .structRow _ => "[object Object]"
  | .arr elems => String.intercalate "," (jsStringElems elems)

/-- String coercion of array elements for `Array.prototype.join`. -/
def jsStringElems : List CellValue → List String
  | [] => []
  | v :: vs =>
    (if isNullOrUndefined v then "" else jsString v) :: jsStringElems vs

end

/-- Model of JS `Number(x)` numeric coercion on cell values (`ToNumber`):
numbers pass through, bigints convert (exactly, in this model), `null` is 0,
`undefined` is NaN, booleans are 0/1, dates are their millisecond value;
strings, struct rows, arrays and buffers coerce to NaN here (the string and
array cases of real `ToNumber` parse numeric text, which no claim relies
on). -/
def jsToNumber : CellValue → JsNum
  | .num n => n
  | .big b => .finite (b : ℚ)
  | .jsNull => .finite 0
  | .undef => .nan
  | .boolV b => .finite (if b then 1 else 0)
  | .dateObj ms => .finite (ms : ℚ)
  | _ => .nan

/-- Escape one character for a JSON string literal. -/
def jsonEscapeChar (c : Char) : List Char :=
  if c == '"' then ['\\', '"']
  else if c == '\\' then ['\\', '\\']
  else if c == '\n' then ['\\', 'n']
  else if c == '\t' then ['\\', 't']
  else if c == '\r' then ['\\', 'r']
  else [c]

/-- Quote a string as a JSON string literal. -/
def jsonQuote (s : String) : String :=
  "\"" ++ String.mk (s.toList.map jsonEscapeChar).flatten ++ "\""

/-- Serialization of a JS number inside JSON text (non-finite numbers
serialize as `null`). -/
def jsonNum (n : JsNum) : String :=
  match n with
  | .finite _ => jsNumToString n
  | _ => "null"

/-- Action of a `JSON.stringify` replacer on one value.  The two replacers
the source passes to `JSON.stringify` only ever return `undefined`
(modelled `drop`), `Number(value)` for a bigint (modelled `asNum`), or the
value unchanged (modelled `keep`), so the replacer is modelled by this
action type. -/
inductive ReplacerAction where
  | drop
  | keep
  | asNum (n : JsNum)

/-- Replacer model. -/
abbrev JsonReplacer := CellValue → ReplacerAction

/-- Model of the `toJSON` hook `JSON.stringify` applies before the replacer:
`Date` values become their ISO string. -/
def applyToJSON : CellValue → CellValue
  | .dateObj ms => .str (dateToISOString ms)
  | v => v

/-- Apply the replacer action for value `v`: `undefined` (`none`) when the
replacer drops it, the number serialization when the replacer converted a
bigint, otherwise the supplied keep-case serialization. -/
def applyReplacer (repl : JsonReplacer) (v : CellValue) (keepResult : Option String) :
    Option String :=
  match repl (applyToJSON v) with
  | .drop => none
  | .asNum n => some (jsonNum n)
  | .keep => keepResult

/-- Keep-case serialization of a non-container value (ECMA-262
`SerializeJSONProperty`).  A `Uint32Array` serializes like a plain object
with index keys.  A plain `bigint` reaching `JSON.stringify` without
replacement would throw; both replacers used by the source convert bigints
to numbers first, so that case is unreachable there and rendered as digits
here. -/
def serializeAtomicKeep : CellValue → Option String
  | .jsNull => some "null"
  | .undef => none
  | .boolV b => some (if b then "true" else "false")
  | .num n => some (jsonNum n)
  | .big b => some (toString b)
  | .str s => some (jsonQuote s)
  | .dateObj ms => some (jsonQuote (dateToISOString ms))
  | .decimalBuf ws =>
    some ("\x7b" ++
      String.intercalate ","
        (((List.range ws.length).zip ws).map
          (fun p => jsonQuote (toString p.1) ++ ":" ++ toString p.2)) ++ "\x7d")
  | .structRow _ => none
  | .arr _ => none

mutual

/-- Model of ECMA-262 `SerializeJSONProperty` with a replacer: serialize one
value; `none` means the value serializes to `undefined` (dropped in objects,
`null` in arrays). -/
def serializeProp (repl : JsonReplacer) : CellValue → Option String
  | .structRow entries =>
    applyReplacer repl (.structRow entries)
      (some ("\x7b" ++ String.intercalate "," (serializeMembers repl entries) ++ "\x7d"))
  | .arr elems =>
    applyReplacer repl (.arr elems)
      (some ("[" ++ String.intercalate "," (serializeElems repl elems) ++ "]"))
  | v => applyReplacer repl v (serializeAtomicKeep v)
termination_by v => sizeOf v
decreasing_by all_goals (simp_wf <;> omega)

/-- Serialize the members of an object, dropping properties whose value
serializes to `undefined`. -/
def serializeMembers (repl : JsonReplacer) : List (String × CellValue) → List String
  | [] => []
  | (k, v) :: rest =>
    match serializeProp repl v with
    | none => serializeMembers repl rest
    | some s => (jsonQuote k ++ ":" ++ s) :: serializeMembers repl rest
termination_by l => sizeOf l
decreasing_by all_goals (simp_wf <;> omega)

/-- Serialize the elements of an array; elements that serialize to
`undefined` become `null`. -/
def serializeElems (repl : JsonReplacer) : List CellValue → List String
  | [] => []
  | v :: rest =>
    (match serializeProp repl v with
     | none => "null"
     | some s => s) :: serializeElems repl rest
termination_by l => sizeOf l
decreasing_by all_goals (simp_wf <;> omega)

end

/-- Model of `JSON.stringify(value, replacer)`. -/
def jsonStringify (repl : JsonReplacer) (v : CellValue) : Option String :=
  serializeProp repl v

/-! ## Specialized formatters (translated from `part_006`) -/

/-- Arrow `TimeUnit.SECOND`. -/
def TimeUnit.SECOND : ℕ := 0

/-- Arrow `TimeUnit.MILLISECOND`. -/
def TimeUnit.MILLISECOND : ℕ := 1

/-- Arrow `TimeUnit.MICROSECOND`. -/
def TimeUnit.MICROSECOND : ℕ := 2

/-- Arrow `TimeUnit.NANOSECOND`. -/
def TimeUnit.NANOSECOND : ℕ := 3

/-- Timestamp-like argument of `convertTimestampToSeconds`
(`number | bigint`). -/
inductive TsValue where
  | jsnum (n : JsNum)
  | jsbig (b : ℤ)

/-- Model of `Number(timestamp)` on a `number | bigint` argument (exact in
this model; real JS rounds a bigint beyond the safe range to the nearest
float). -/
def tsToNumber : TsValue → JsNum
  | .jsnum n => n
  | .jsbig b => .finite (b : ℚ)

/-- Coerce a cell value to the `number | bigint` argument the temporal
formatters receive (values of other runtime types go through JS `Number`
coercion when arithmetic is applied to them). -/
def cellToTs : CellValue → TsValue
  | .big b => .jsbig b
  | v => .jsnum (jsToNumber v)

/-- `convertTimestampToSeconds` (part_006 lines 164-196): adjust a
timestamp to seconds based on the Arrow unit; milliseconds, microseconds
and nanoseconds divide by 1e3/1e6/1e9, any other unit is interpreted as
seconds; a bigint that is not safe as a number is divided in bigint
arithmetic (truncating) and only the quotient converted. -/
def convertTimestampToSeconds (timestamp : TsValue) (unit : ℕ) : JsNum :=
  let adj? : Option ℕ :=
    if unit = TimeUnit.MILLISECOND then some 1000
    else if unit = TimeUnit.MICROSECOND then some (1000 * 1000)
    else if unit = TimeUnit.NANOSECOND then some (1000 * 1000 * 1000)
    else none
  match adj? with
  | none => tsToNumber timestamp
  | some unitAdjustment =>
    match timestamp with
    | .jsbig b =>
      if ¬ (jsIsSafeInteger (tsToNumber (.jsbig b)) = true) then
        .finite ((Int.tdiv b unitAdjustment : ℤ) : ℚ)
      else (tsToNumber (.jsbig b)).divNat unitAdjustment
    | .jsnum n => n.divNat unitAdjustment

/-- Moment rendering `moment.unix(t).utc().format(...)` used by
`formatTime`: `HH:mm:ss`, extended with `.SSS` when the seconds value has a
fractional part (`timeInSeconds % 1 === 0` check). -/
def momentUnixHMS (q : ℚ) : String :=
  let msI := ratTruncMul q 1000
  if q.den = 1 then fmtHMS msI else fmtHMSms msI

/-- `formatTime` (part_006 lines 205-214). -/
def formatTime (timestamp : TsValue) (field? : Option ArrowField) : String :=
  let timeInSeconds :=
    convertTimestampToSeconds timestamp ((fieldUnit field?).getD TimeUnit.SECOND)
  match timeInSeconds with
  | .finite q => momentUnixHMS q
  | _ => "Invalid date"

/-- `formatDate` (part_006 lines 216-231): `Date` instances and finite
numbers (epoch milliseconds) render as `YYYY-MM-DD` in UTC; anything else
logs a warning and stringifies. -/
def formatDate (date : CellValue) : String :=
  match date with
  | .dateObj ms => fmtYMD (dayOfMs ms)
  | .num (.finite q) => fmtYMD (dayOfMs (ratTrunc q))
  | d => jsString d

/-- Offset minutes of a timezone designator.  Modelled: a `±HH:MM` or
`±HHMM` designator parses as a fixed offset; the IANA zone database is an
external resource not modelled here, so zone names resolve to offset 0.
Only totality of datetime formatting matters for the claims below. -/
def tzOffsetMinutes (tz : String) : ℤ :=
  match tz.toList with
  | s :: h1 :: h2 :: ':' :: m1 :: m2 :: [] =>
    if (s == '+' || s == '-') && h1.isDigit && h2.isDigit && m1.isDigit && m2.isDigit then
      (if s == '-' then -1 else 1) *
        (((h1.toNat - 48) * 10 + (h2.toNat - 48)) * 60 + ((m1.toNat - 48) * 10 + (m2.toNat - 48)))
    else 0
  | s :: h1 :: h2 :: m1 :: m2 :: [] =>
    if (s == '+' || s == '-') && h1.isDigit && h2.isDigit && m1.isDigit && m2.isDigit then
      (if s == '-' then -1 else 1) *
        (((h1.toNat - 48) * 10 + (h2.toNat - 48)) * 60 + ((m1.toNat - 48) * 10 + (m2.toNat - 48)))
    else 0
  | _ => 0

/-- Moment `Z` token: numeric UTC offset such as `+05:00`. -/
def fmtOffset (minutes : ℤ) : String :=
  (if minutes < 0 then "-" else "+") ++
    pad2 (Int.fdiv minutes.natAbs 60) ++ ":" ++ pad2 (Int.emod minutes.natAbs 60)

/-- `formatDatetime` (part_006 lines 236-261): UTC `YYYY-MM-DD HH:mm:ss`
without timezone metadata; with a timezone designator the instant is shifted
and a numeric UTC offset appended.  Values that are neither dates nor finite
numbers produce moment's invalid-date rendering. -/
def formatDatetime (date : CellValue) (field? : Option ArrowField) : String :=
  let ms? : Option ℤ :=
    match date with
    | .dateObj ms => some ms
    | .num (.finite q) => some (ratTrunc q)
    | _ => none
  match ms? with
  | none => "Invalid date"
  | some ms =>
    match fieldTimezone field? with
    | some tz =>
      if tz = "" then fmtYMDHMS ms
      else
        let off := tzOffsetMinutes tz
        fmtYMDHMS (ms + off * 60000) ++ fmtOffset off
    | none => fmtYMDHMS ms

/-- Model of `moment.duration(seconds, "seconds").humanize()`: moment's
humanize thresholds (`ss`=44, `s`=45, `m`=45, `h`=22, `d`=26, `M`=11)
applied to the rounded magnitude.  Non-finite durations render as the
zero-duration text in this model. -/
def humanizeSeconds (t : JsNum) : String :=
  match t with
  | .finite q0 =>
    let q : ℚ := mkRat q0.num.natAbs q0.den
    let seconds := jsRoundDiv q 1
    let minutes := jsRoundDiv q 60
    let hours := jsRoundDiv q 3600
    let days := jsRoundDiv q 86400
    let months := jsRoundDiv q 2629800
    let years := jsRoundDiv q 31557600
    if seconds ≤ 44 then "a few seconds"
    else if seconds ≤ 89 then "a minute"
    else if minutes ≤ 44 then toString minutes ++ " minutes"
    else if minutes ≤ 89 then "an hour"
    else if hours ≤ 21 then toString hours ++ " hours"
    else if hours ≤ 35 then "a day"
    else if days ≤ 25 then toString days ++ " days"
    else if days ≤ 45 then "a month"
    else if days ≤ 344 then toString months ++ " months"
    else if years ≤ 1 then "a year"
    else toString years ++ " years"
  | _ => "a few seconds"

/-- `formatDuration` (part_006 lines 270-281): convert to seconds with the
field unit (default: nanoseconds) and humanize. -/
def formatDuration (duration : CellValue) (field? : Option ArrowField) : String :=
  humanizeSeconds
    (convertTimestampToSeconds (cellToTs duration)
      ((fieldUnit field?).getD TimeUnit.NANOSECOND))

/-- Decode a `Uint32Array` of little-endian 32-bit words as a
two's-complement signed integer and print it in decimal — model of
`util.bigNumToString(new util.BN(value))` from arrow JS. -/
def bigNumToString (words : List ℕ) : String :=
  let n : ℕ := (words.reverse).foldl (fun acc w => acc * 2 ^ 32 + w % 2 ^ 32) 0
  let bits := 32 * words.length
  let v : ℤ := if 2 * n ≥ 2 ^ bits ∧ words.length ≠ 0 then (n : ℤ) - 2 ^ bits else (n : ℤ)
  toString v

/-- String-processing core of `formatDecimal` (part_006 lines 294-326),
applied to the decimal string of the unscaled value: pad with zeros to at
least `scale` characters (the sign, when present, counts toward that
length), return directly when `scale` is 0, otherwise strip a leading minus,
split off the last `scale` characters as the fractional part, trim its
trailing zeros, and reassemble. -/
def formatDecimalString (numString0 : String) (scale : ℕ) : String :=
  let numString := jsPadStart numString0 scale '0'
  if scale = 0 then numString
  else
    let sign := if strStartsWith numString "-" then "-" else ""
    let numString := if strStartsWith numString "-" then strDrop numString 1 else numString
    let wholePart := if jsSliceDropLast numString scale = "" then "0"
      else jsSliceDropLast numString scale
    let decimalPart := trimEndZeros (jsSliceLast numString scale)
    sign ++ wholePart ++ (if decimalPart ≠ "" then "." ++ decimalPart else "")

/-- `formatDecimal` (part_006 lines 294-326): format an unscaled decimal
buffer using the field's scale (`field?.type?.scale || 0`). -/
def formatDecimal (value : List ℕ) (field? : Option ArrowField) : String :=
  let scale := (fieldScale field?).getD 0
  formatDecimalString (bigNumToString value) scale

/-- Dispatcher's decimal branch on an arbitrary cell (`x as Uint32Array`):
buffers decode through `bigNumToString`; for non-buffer cells (outside the
upstream decoder's contract, and exercised by no claim) the same
string-processing runs on the value's string coercion. -/
def formatDecimalCell (x : CellValue) (field? : Option ArrowField) : String :=
  match x with
  | .decimalBuf ws => formatDecimal ws field?
  | v => formatDecimalString (jsString v) ((fieldScale field?).getD 0)

/-- `formatFloat` (part_006 lines 411-417): non-finite numbers stringify
raw, finite numbers format as `numbro` `"0,0.0000"`. -/
def formatFloat (num : JsNum) : String :=
  if ¬ (num.isFinite = true) then jsNumToString num
  else
    match num with
    | .finite q => numbroFormat4 q
    | n => jsNumToString n

/-! ## Period formatting (part_006 lines 72-146, 328-376) -/

/-- `WEEKDAY_SHORT` (part_006 line 72). -/
def WEEKDAY_SHORT : List String := ["SUN", "MON", "TUE", "WED", "THU", "FRI", "SAT"]

/-- Model of `Array.prototype.indexOf`: index of the first occurrence, `-1`
when absent. -/
def jsIndexOf (l : List String) (x : String) : ℤ :=
  match l.indexOf? x with
  | some i => (i : ℤ)
  | none => -1

/-- `formatMs` (part_006 line 73): epoch + duration milliseconds,
`YYYY-MM-DD HH:mm:ss.SSS`. -/
def formatMs (duration : ℤ) : String := fmtYMDHMSms duration

/-- `formatSec` (part_006 line 78): epoch + duration seconds,
`YYYY-MM-DD HH:mm:ss`. -/
def formatSec (duration : ℤ) : String := fmtYMDHMS (duration * 1000)

/-- `formatMin` (part_006 line 83): epoch + duration minutes,
`YYYY-MM-DD HH:mm`. -/
def formatMin (duration : ℤ) : String := fmtYMDHM (duration * 60000)

/-- `formatHours` (part_006 line 86): epoch + duration hours,
`YYYY-MM-DD HH:mm`. -/
def formatHours (duration : ℤ) : String := fmtYMDHM (duration * 3600000)

/-- `formatDay` (part_006 line 89): epoch + duration days, `YYYY-MM-DD`. -/
def formatDay (duration : ℤ) : String := fmtYMD duration

/-- `formatMonth` (part_006 line 92): epoch + duration months, `YYYY-MM`. -/
def formatMonth (duration : ℤ) : String :=
  fmtYear (1970 + Int.fdiv duration 12) ++ "-" ++ pad2 (Int.emod duration 12 + 1)

/-- `formatYear` (part_006 line 95): epoch + duration years, `YYYY`. -/
def formatYear (duration : ℤ) : String := fmtYear (1970 + duration)

/-- `formatQuarter` (part_006 line 122): epoch + duration quarters, anchored
to the end of the quarter, `YYYY[Q]Q` (the end-of-quarter anchor does not
change the year or quarter number). -/
def formatQuarter (duration : ℤ) : String :=
  fmtYear (1970 + Int.fdiv (3 * duration) 12) ++ "Q" ++
    toString (Int.fdiv (Int.emod (3 * duration) 12) 3 + 1)

/-- `formatWeeks` (part_006 lines 98-120): requires a weekday parameter from
`WEEKDAY_SHORT` (a missing — or empty, `!freqParam` — parameter and an
unknown weekday both throw); renders `start/end` where both ends are epoch +
duration weeks moved to day-of-week `dayIndex - 6` resp. `dayIndex`. -/
def formatWeeks (duration : ℤ) (freqParam : Option String) : Except JsErr String :=
  match freqParam with
  | none => .error (.error "Frequency \x22W\x22 requires parameter")
  | some "" => .error (.error "Frequency \x22W\x22 requires parameter")
  | some p =>
    let dayIndex := jsIndexOf WEEKDAY_SHORT p
    if dayIndex < 0 then
      .error (.error ("Invalid value: " ++ p ++
        ". Supported values: [\x22SUN\x22,\x22MON\x22,\x22TUE\x22,\x22WED\x22,\x22THU\x22,\x22FRI\x22,\x22SAT\x22]"))
    else
      let startDate := fmtYMD (momentSetDay (duration * 7) (dayIndex - 6))
      let endDate := fmtYMD (momentSetDay (duration * 7) dayIndex)
      .ok (startDate ++ "/" ++ endDate)

/-- `PERIOD_TYPE_FORMATTERS` (part_006 lines 128-146): the fixed frequency
table; only the week formatter consumes the frequency parameter. -/
def PERIOD_TYPE_FORMATTERS : List (String × (ℤ → Option String → Except JsErr String)) :=
  [ ("L", fun d _ => .ok (formatMs d))
  , ("ms", fun d _ => .ok (formatMs d))
  , ("S", fun d _ => .ok (formatSec d))
  , ("s", fun d _ => .ok (formatSec d))
  , ("T", fun d _ => .ok (formatMin d))
  , ("min", fun d _ => .ok (formatMin d))
  , ("H", fun d _ => .ok (formatHours d))
  , ("h", fun d _ => .ok (formatHours d))
  , ("D", fun d _ => .ok (formatDay d))
  , ("M", fun d _ => .ok (formatMonth d))
  , ("W", formatWeeks)
  , ("Q", fun d _ => .ok (formatQuarter d))
  , ("Y", fun d _ => .ok (formatYear d))
  , ("A", fun d _ => .ok (formatYear d)) ]

/-- Model of `freq.split("-", 2)` destructured to `[freqName, freqParam]`:
the text before the first `-`, and the component after it when one exists. -/
def splitFreq (freq : String) : String × Option String :=
  match freq.toList.splitOn '-' with
  | [] => ("", none)
  | [a] => (String.mk a, none)
  | a :: b :: _ => (String.mk a, some (String.mk b))

/-- Integer value of a safe-integer JS number (its denominator is 1 under
the `Number.isSafeInteger` guard; truncation otherwise). -/
def jsNumToInt (n : JsNum) : ℤ :=
  match n with
  | .finite q => Int.tdiv q.num (q.den : ℤ)
  | _ => 0

/-- `formatPeriodFromFreq` (part_006 lines 328-347): look up the frequency
base in the table (unknown bases log a warning and stringify the duration);
durations that are not safe integers log a warning and stringify; otherwise
the table formatter runs. -/
def formatPeriodFromFreq (duration : CellValue) (freq : String) : Except JsErr String :=
  let p := splitFreq freq
  match PERIOD_TYPE_FORMATTERS.lookup p.1 with
  | none => .ok (jsString duration)
  | some momentConverter =>
    let durationNumber := jsToNumber duration
    if ¬ (jsIsSafeInteger durationNumber = true) then .ok (jsString duration)
    else momentConverter (jsNumToInt durationNumber) p.2

/-- `formatPeriod` (part_006 lines 349-376): requires field metadata with the
`pandas.period` extension; missing field, missing extension entries or a
foreign extension name log a warning and stringify.  Present metadata is
`JSON.parse`d (throwing on malformed text); parsing to `null` throws the
destructuring `TypeError`, and a `freq` that is not a string throws the
`freq.split` `TypeError`. -/
def formatPeriod (duration : CellValue) (field? : Option ArrowField) : Except JsErr String :=
  match field? with
  | none => .ok (jsString duration)
  | some field =>
    match metaGet field "ARROW:extension:name", metaGet field "ARROW:extension:metadata" with
    | none, _ => .ok (jsString duration)
    | _, none => .ok (jsString duration)
    | some extensionName, some extensionMetadata =>
      if extensionName ≠ "pandas.period" then .ok (jsString duration)
      else
        match jsonParse extensionMetadata with
        | .error e => .error e
        | .ok .jnull =>
          .error (.typeError "Cannot destructure property of null")
        | .ok parsed =>
          match jprop parsed "freq" with
          | some (.jstr freq) => formatPeriodFromFreq duration freq
          | _ => .error (.typeError "freq.split is not a function")

/-- The replacer `formatObject` passes to `JSON.stringify` for struct-typed
fields (part_006 lines 389-398): drop null/undefined leaves, coerce bigint
leaves to numbers. -/
def structReplacer : JsonReplacer := fun value =>
  if isNullOrUndefined value then .drop
  else match value with
    | .big b => .asNum (.finite (b : ℚ))
    | _ => .keep

/-- The replacer `formatObject` passes to `JSON.stringify` for every other
field type (part_006 lines 400-402): coerce bigint leaves to numbers. -/
def bigintReplacer : JsonReplacer := fun value =>
  match value with
  | .big b => .asNum (.finite (b : ℚ))
  | _ => .keep

/-- `formatObject` (part_006 lines 381-403): `JSON.stringify` with the
null-dropping bigint-coercing replacer for struct-typed fields, and with
the plain bigint-coercing replacer otherwise.  The top-level stringify
result can only be `undefined` for a null/undefined cell, which the
dispatcher filters first. -/
def formatObject (object : CellValue) (field? : Option ArrowField) : String :=
  if isStructType field? then (jsonStringify structReplacer object).getD "undefined"
  else (jsonStringify bigintReplacer object).getD "undefined"

/-! ## The dispatcher `format` and `formatInterval` -/

/-- Property access on a struct row's JSON object (`interval.left`,
`interval.right`). -/
def lookupCell : List (String × CellValue) → String → Option CellValue
  | [], _ => none
  | (k, v) :: rest, key => if k = key then some v else lookupCell rest key

/-- Size bound for recursion through `lookupCell`. -/
theorem lookupCell_sizeOf_lt (entries : List (String × CellValue)) (key : String)
    (v : CellValue) (h : lookupCell entries key = some v) :
    sizeOf v < sizeOf entries := by
  induction entries with
  | nil => simp [lookupCell] at h
  | cons hd tl ih =>
    obtain ⟨k, w⟩ := hd
    by_cases hk : k = key
    · simp only [lookupCell, hk, if_pos] at h
      cases h
      simp only [List.cons.sizeOf_spec, Prod.mk.sizeOf_spec]
      omega
    · simp only [lookupCell, hk, if_neg, not_false_iff] at h
      have := ih h
      simp only [List.cons.sizeOf_spec]
      omega

/-- The interval bound passed to the recursive `format` call:
`interval.left` / `interval.right`, which is `undefined` when the struct row
misses the property. -/
def intervalBound (entries : List (String × CellValue)) (key : String) : CellValue :=
  (lookupCell entries key).getD .undef

theorem list_sizeOf_pos (l : List (String × CellValue)) : 0 < sizeOf l := by
  cases l <;> simp

theorem intervalBound_sizeOf_lt (entries : List (String × CellValue)) (key : String) :
    sizeOf (intervalBound entries key) < sizeOf (CellValue.structRow entries) := by
  unfold intervalBound
  have hpos := list_sizeOf_pos entries
  cases h : lookupCell entries key with
  | none =>
    simp only [Option.getD, CellValue.structRow.sizeOf_spec, CellValue.undef.sizeOf_spec]
    omega
  | some v =>
    have := lookupCell_sizeOf_lt entries key v h
    simp only [Option.getD, CellValue.structRow.sizeOf_spec]
    omega

/-- `typeName?.startsWith(prefix)` with an optionally-absent type name. -/
def optStartsWith (o : Option String) (p : String) : Bool :=
  match o with
  | some s => strStartsWith s p
  | none => false

/-- The `typeName` the dispatcher computes (`type && getTypeName(type)`). -/
def typeNameOf (type? : Option TypeDescr) : Option String :=
  type?.map getTypeName

/-- The `extensionName` the dispatcher computes
(`field && field.metadata.get("ARROW:extension:name")`). -/
def extNameOf (field? : Option ArrowField) : Option String :=
  field?.bind (fun f => metaGet f "ARROW:extension:name")

/-- Outcome of the extension-metadata analysis `formatInterval` performs
before touching the cell value. -/
inductive IntervalMetaResult where
  | plain
  | err (e : JsErr)
  | meta (subtype? : Option String) (closed : String) (badSubtype : Bool)

/-- Metadata analysis of `formatInterval` (part_006 lines 426-431): the cell
stringifies unless the field carries the `pandas.interval` extension name;
the extension metadata is then `JSON.parse`d — a missing entry parses the
text `"undefined"` and throws a `SyntaxError`, malformed text throws a
`SyntaxError`, `null` throws the destructuring `TypeError`.  The
destructured `subtype` is `none` when absent and flagged `badSubtype` when
present but not a string (the recursive dispatch would throw a `TypeError`
at `typeName.startsWith` on it); a non-string `closed` compares unequal to
every bracket selector and is normalized to `""` here. -/
def intervalMeta (field? : Option ArrowField) : IntervalMetaResult :=
  match field? with
  | none => .plain
  | some field =>
    if metaGet field "ARROW:extension:name" ≠ some "pandas.interval" then .plain
    else
      match metaGet field "ARROW:extension:metadata" with
      | none => .err (.syntaxError "Unexpected token u in JSON")
      | some metadataText =>
        match jsonParse metadataText with
        | .error e => .err e
        | .ok .jnull => .err (.typeError "Cannot destructure property of null")
        | .ok parsed =>
          let closed := match jprop parsed "closed" with
            | some (.jstr s) => s
            | _ => ""
          match jprop parsed "subtype" with
          | some (.jstr subtype) => .meta (some subtype) closed false
          | none => .meta none closed false
          | some _ => .meta none closed true

mutual

/-- `format` (part_006 lines 461-517): the display-formatting dispatcher.
First match wins: null marker, date, time, datetime, period, interval,
timedelta, decimal, finite float, object/list, raw stringification. -/
def format (x : CellValue) (type? : Option TypeDescr) (field? : Option ArrowField) :
    Except JsErr String :=
  let typeName? := typeNameOf type?
  let isDate := isDateObj x || cellIsFiniteNumber x
  if isNullOrUndefined x then .ok "<NA>"
  else if isDate && typeName? == some "date" then .ok (formatDate x)
  else if isBigIntValue x && typeName? == some "time" then
    .ok (formatTime (.jsnum (jsToNumber x)) field?)
  else if isDate && (optStartsWith typeName? "datetime" || isTimestampFieldType field?) then
    .ok (formatDatetime x field?)
  else if optStartsWith typeName? "period" || extNameOf field? == some "pandas.period" then
    formatPeriod x field?
  else if optStartsWith typeName? "interval" then
    formatInterval x field?
  else if optStartsWith typeName? "timedelta" then
    .ok (formatDuration x field?)
  else if typeName? == some "decimal" then
    .ok (formatDecimalCell x field?)
  else if (typeName? == some "float64" || isFloatFieldType field?) && cellIsFiniteNumber x then
    .ok (formatFloat (jsToNumber x))
  else if typeName? == some "object" || optStartsWith typeName? "list" then
    .ok (formatObject x field?)
  else .ok (jsString x)
termination_by 2 * sizeOf x + 1
decreasing_by all_goals (simp_wf <;> omega)

/-- `formatInterval` (part_006 lines 422-458): requires the
`pandas.interval` extension (anything else stringifies the cell); parses the
extension metadata (`JSON.parse` of a missing entry or malformed text
throws a `SyntaxError`, metadata `null` throws the destructuring
`TypeError`, see `intervalMeta`); reads the `(left, right)` struct row
(`x.toJSON()` throws a `TypeError` on a non-struct cell); renders the
bounds with the bracket pair selected by `closed`, each bound formatted by
a recursive `format` call with `subtype` as both components of the logical
type and the struct children as fields. -/
def formatInterval (x : CellValue) (field? : Option ArrowField) : Except JsErr String :=
  match intervalMeta field? with
  | .plain => .ok (jsString x)
  | .err e => .error e
  | .meta subtype? closed badSubtype =>
    match x with
    | .structRow entries =>
      if badSubtype then .error (.typeError "typeName.startsWith is not a function")
      else
        let boundType? : Option TypeDescr := subtype?.map (fun st => ⟨st, st⟩)
        let leftBracket := if closed = "both" ∨ closed = "left" then "[" else "("
        let rightBracket := if closed = "both" ∨ closed = "right" then "]" else ")"
        match format (intervalBound entries "left") boundType?
            ((field?.map fieldChildren).getD [] |>.get? 0) with
        | .error e => .error e
        | .ok leftInterval =>
          match format (intervalBound entries "right") boundType?
              ((field?.map fieldChildren).getD [] |>.get? 1) with
          | .error e => .error e
          | .ok rightInterval =>
            .ok (leftBracket ++ leftInterval ++ ", " ++ rightInterval ++ rightBracket)
    | _ => .error (.typeError "x.toJSON is not a function")
termination_by 2 * sizeOf x
decreasing_by all_goals
  (simp_wf <;>
    (have hL := intervalBound_sizeOf_lt entries "left"
     have hR := intervalBound_sizeOf_lt entries "right"
     simp only [CellValue.structRow.sizeOf_spec] at hL hR <;> omega))

end

/-- Modelled from the spec (section 4.8), for comparison with the code's
`formatDecimalString`: the decimal expansion of `N / 10^scale` — digit
string of `N` sign-preserved, zero-padded to at least `scale + 1` digits,
whole part all but the last `scale` digits, fractional part the last
`scale` digits with trailing zeros trimmed, assembled as
`[sign]whole[.fraction]` with the separator omitted when the trimmed
fraction is empty or the scale is 0. -/
def specFormatDecimal (n : ℤ) (scale : ℕ) : String :=
  let sign := if n < 0 then "-" else ""
  let digits := jsPadStart (toString n.natAbs) (scale + 1) '0'
  let whole := if jsSliceDropLast digits scale = "" then "0" else jsSliceDropLast digits scale
  let fraction := trimEndZeros (jsSliceLast digits scale)
  sign ++ whole ++ (if fraction ≠ "" ∧ scale ≠ 0 then "." ++ fraction else "")
/-- Dispatch context in which no rule ahead of (or behind) the float rule
can capture a number value: the type name is none of the
earlier-dispatched names and the field carries neither timestamp storage
nor the period extension (and the type name is not `object`/`list…`, so a
non-finite number still reaches raw stringification). -/
def floatDispatchClear (type? : Option TypeDescr) (field? : Option ArrowField) : Prop :=
  typeNameOf type? ≠ some "date" ∧
  optStartsWith (typeNameOf type?) "datetime" = false ∧
  isTimestampFieldType field? = false ∧
  optStartsWith (typeNameOf type?) "period" = false ∧
  extNameOf field? ≠ some "pandas.period" ∧
  optStartsWith (typeNameOf type?) "interval" = false ∧
  optStartsWith (typeNameOf type?) "timedelta" = false ∧
  typeNameOf type? ≠ some "decimal" ∧
  typeNameOf type? ≠ some "object" ∧
  optStartsWith (typeNameOf type?) "list" = false
/-- Leaf values (no nested containers) for the object-formatting analysis. -/
def isAtomicLeaf : CellValue → Bool
  | .structRow _ => false
  | .arr _ => false
  | .decimalBuf _ => false
  | _ => true
/-- One rendered member under a replacer, for atomic leaves. -/
def memberRender (repl : JsonReplacer) (p : String × CellValue) : Option String :=
  (applyReplacer repl p.2 (serializeAtomicKeep p.2)).map
    (fun s => jsonQuote p.1 ++ ":" ++ s)
/-- Amended-claim leaf rendering under a Struct-typed field: null and
undefined property leaves are omitted, bigint leaves are coerced to
numbers, other leaves serialize as plain JSON. -/
def structLeafRender (p : String × CellValue) : Option String :=
  match p.2 with
  | .jsNull => none
  | .undef => none
  | .big b => some (jsonQuote p.1 ++ ":" ++ jsNumToString (.finite (b : ℚ)))
  | .num n => some (jsonQuote p.1 ++ ":" ++ jsonNum n)
  | .str s => some (jsonQuote p.1 ++ ":" ++ jsonQuote s)
  | .boolV b => some (jsonQuote p.1 ++ ":" ++ (if b then "true" else "false"))
  | .dateObj ms => some (jsonQuote p.1 ++ ":" ++ jsonQuote (dateToISOString ms))
  | _ => none
/-- Amended-claim leaf rendering under every non-Struct field: undefined
property leaves are still omitted (plain `JSON.stringify` semantics), null
leaves are preserved as JSON `null`, bigint leaves are coerced to
numbers. -/
def plainLeafRender (p : String × CellValue) : Option String :=
  match p.2 with
  | .jsNull => some (jsonQuote p.1 ++ ":" ++ "null")
  | .undef => none
  | .big b => some (jsonQuote p.1 ++ ":" ++ jsNumToString (.finite (b : ℚ)))
  | .num n => some (jsonQuote p.1 ++ ":" ++ jsonNum n)
  | .str s => some (jsonQuote p.1 ++ ":" ++ jsonQuote s)
  | .boolV b => some (jsonQuote p.1 ++ ":" ++ (if b then "true" else "false"))
  | .dateObj ms => some (jsonQuote p.1 ++ ":" ++ jsonQuote (dateToISOString ms))
  | _ => none
/-- The exceptions the engine can raise: the two week-parameter errors
thrown by `formatWeeks`, and the `SyntaxError` / `TypeError` failures
caused by present-but-invalid extension metadata (or by interval formatting
of a non-struct cell). -/
def isParamOrMetadataError (e : JsErr) : Prop :=
  e = .error "Frequency \x22W\x22 requires parameter" ∨
  (∃ p : String, e = .error ("Invalid value: " ++ p ++
    ". Supported values: [\x22SUN\x22,\x22MON\x22,\x22TUE\x22,\x22WED\x22,\x22THU\x22,\x22FRI\x22,\x22SAT\x22]")) ∨
  (∃ m : String, e = .syntaxError m) ∨
  (∃ m : String, e = .typeError m)

/-! ## Supporting lemmas -/

theorem ratDivNat_eq (q : ℚ) (c : ℕ) : ratDivNat q c = q / c := by
  unfold ratDivNat
  rw [Rat.mkRat_eq_div]
  push_cast
  rw [← div_div, Rat.num_div_den]

theorem jsIsSafeInteger_intCast (b : ℤ) :
    jsIsSafeInteger (.finite (b : ℚ)) = decide (b.natAbs ≤ maxSafeInteger) := by
  simp [jsIsSafeInteger, Rat.den_intCast, Rat.num_intCast]

/-- C2 (code_bug evaluation): the claim's positive examples do hold of
`formatDecimal` — unscaled 123450 at scale 3 gives `"123.45"` and unscaled
-5 at scale 0 gives `"-5"` — but for a negative unscaled value with fewer
digits than the scale the code zero-pads the string with the minus sign
still inside it (`padStart` runs before the sign is stripped), so unscaled
-5 at scale 3 (the 128-bit two's-complement buffer below) renders as the
garbled `"0.0-5"` instead of the decimal expansion `"-0.005"` required by
the claim; the spec-side algorithm (`specFormatDecimal`) produces
`"-0.005"` there. -/
theorem formatDecimal_padStart_sign_bug :
    formatDecimal [4294967290 + 1, 4294967295, 4294967295, 4294967295]
        (some (.fieldMk [] (.decimalT 3))) = "0.0-5" ∧
    specFormatDecimal (-5) 3 = "-0.005" ∧
    bigNumToString [4294967290 + 1, 4294967295, 4294967295, 4294967295] = "-5" ∧
    formatDecimalString "123450" 3 = "123.45" ∧
    formatDecimal [4294967290 + 1, 4294967295, 4294967295, 4294967295]
        (some (.fieldMk [] (.decimalT 0))) = "-5" := by
  refine ⟨by decide, by decide, by decide, by decide, by decide⟩

/-- C3: `convertTimestampToSeconds` divides a numeric timestamp by 1, 1e3,
1e6 or 1e9 for the SECOND / MILLISECOND / MICROSECOND / NANOSECOND units,
treats every other unit code as seconds (identity), converts a safe-range
bigint like the corresponding number, divides an out-of-safe-range bigint
in big-integer arithmetic keeping only the quotient, and satisfies
`toSeconds(1000, MILLISECOND) = 1` and
`toSeconds(1000000000, NANOSECOND) = 1`; it is a total function (never
throws). -/
theorem convertTimestampToSeconds_spec :
    (∀ q : ℚ,
      convertTimestampToSeconds (.jsnum (.finite q)) TimeUnit.MILLISECOND
          = .finite (q / 1000) ∧
      convertTimestampToSeconds (.jsnum (.finite q)) TimeUnit.MICROSECOND
          = .finite (q / 1000000) ∧
      convertTimestampToSeconds (.jsnum (.finite q)) TimeUnit.NANOSECOND
          = .finite (q / 1000000000) ∧
      convertTimestampToSeconds (.jsnum (.finite q)) TimeUnit.SECOND = .finite q) ∧
    (∀ (b : ℤ) (u : ℕ), b.natAbs ≤ maxSafeInteger →
      convertTimestampToSeconds (.jsbig b) u
        = convertTimestampToSeconds (.jsnum (.finite (b : ℚ))) u) ∧
    (∀ b : ℤ, maxSafeInteger < b.natAbs →
      convertTimestampToSeconds (.jsbig b) TimeUnit.MILLISECOND
          = .finite ((Int.tdiv b 1000 : ℤ) : ℚ) ∧
      convertTimestampToSeconds (.jsbig b) TimeUnit.MICROSECOND
          = .finite ((Int.tdiv b 1000000 : ℤ) : ℚ) ∧
      convertTimestampToSeconds (.jsbig b) TimeUnit.NANOSECOND
          = .finite ((Int.tdiv b 1000000000 : ℤ) : ℚ)) ∧
    (∀ (t : TsValue) (u : ℕ), u ≠ 1 → u ≠ 2 → u ≠ 3 →
      convertTimestampToSeconds t u = tsToNumber t) ∧
    convertTimestampToSeconds (.jsnum (.finite 1000)) TimeUnit.MILLISECOND = .finite 1 ∧
    convertTimestampToSeconds (.jsbig 1000000000) TimeUnit.NANOSECOND = .finite 1 := by
  have hdiv : ∀ (q : ℚ) (c : ℕ), JsNum.divNat (.finite q) c = .finite (q / c) := by
    intro q c
    simp [JsNum.divNat, ratDivNat_eq]
  refine ⟨?_, ?_, ?_, ?_, by decide, by decide⟩
  · intro q
    refine ⟨?_, ?_, ?_, ?_⟩ <;>
      simp [convertTimestampToSeconds, TimeUnit.MILLISECOND, TimeUnit.MICROSECOND,
        TimeUnit.NANOSECOND, TimeUnit.SECOND, tsToNumber, hdiv] <;> norm_num
  · intro b u hb
    by_cases h1 : u = 1 <;> by_cases h2 : u = 2 <;> by_cases h3 : u = 3 <;>
      simp_all [convertTimestampToSeconds, TimeUnit.MILLISECOND, TimeUnit.MICROSECOND,
        TimeUnit.NANOSECOND, tsToNumber, jsIsSafeInteger_intCast]
  · intro b hb
    have hs : jsIsSafeInteger (.finite (b : ℚ)) = false := by
      rw [jsIsSafeInteger_intCast]
      simp
      omega
    refine ⟨?_, ?_, ?_⟩ <;>
      simp [convertTimestampToSeconds, TimeUnit.MILLISECOND, TimeUnit.MICROSECOND,
        TimeUnit.NANOSECOND, tsToNumber, hs]
  · intro t u h1 h2 h3
    simp [convertTimestampToSeconds, TimeUnit.MILLISECOND, TimeUnit.MICROSECOND,
      TimeUnit.NANOSECOND, h1, h2, h3]

/-- C3 witness: the theorem applied at concrete inputs — an out-of-safe-range
bigint converts through big-integer division without throwing, and the two
cited unit conversions hold. -/
theorem convertTimestampToSeconds_spec_witness :
    convertTimestampToSeconds (.jsbig (2 ^ 60)) TimeUnit.MILLISECOND
        = .finite ((Int.tdiv (2 ^ 60) 1000 : ℤ) : ℚ) ∧
    convertTimestampToSeconds (.jsnum (.finite 1000)) TimeUnit.MILLISECOND = .finite 1 ∧
    convertTimestampToSeconds (.jsbig 7) 9 = .finite 7 := by
  refine ⟨(convertTimestampToSeconds_spec.2.2.1 (2 ^ 60) (by decide)).1, ?_, ?_⟩
  · exact convertTimestampToSeconds_spec.2.2.2.2.1
  · have h := convertTimestampToSeconds_spec.2.2.2.1 (.jsbig 7) 9
      (by decide) (by decide) (by decide)
    rw [h]
    decide

/-- C5: for a frequency whose base code is not in the supported table,
`formatPeriodFromFreq` returns the raw stringification of the duration
(after logging a warning) instead of throwing, and likewise for any
duration whose numeric conversion is not a safe integer. -/
theorem formatPeriodFromFreq_fallback :
    (∀ (v : CellValue) (freq : String),
      PERIOD_TYPE_FORMATTERS.lookup (splitFreq freq).1 = none →
      formatPeriodFromFreq v freq = .ok (jsString v)) ∧
    (∀ (v : CellValue) (freq : String),
      jsIsSafeInteger (jsToNumber v) = false →
      formatPeriodFromFreq v freq = .ok (jsString v)) := by
  constructor
  · intro v freq h
    simp [formatPeriodFromFreq, h]
  · intro v freq h
    cases hl : PERIOD_TYPE_FORMATTERS.lookup (splitFreq freq).1 with
    | none => simp [formatPeriodFromFreq, hl]
    | some f => simp [formatPeriodFromFreq, hl, h]

/-- C5 witness: an out-of-safe-range duration with the unknown code `"Z"`
and with the supported code `"D"` both stringify raw. -/
theorem formatPeriodFromFreq_fallback_witness :
    formatPeriodFromFreq (.big (2 ^ 60)) "Z" = .ok "1152921504606846976" ∧
    formatPeriodFromFreq (.big (2 ^ 60)) "D" = .ok "1152921504606846976" := by
  constructor
  · rw [formatPeriodFromFreq_fallback.1 (.big (2 ^ 60)) "Z" (by rfl)]
    rfl
  · rw [formatPeriodFromFreq_fallback.2 (.big (2 ^ 60)) "D"
      (by rw [jsToNumber, jsIsSafeInteger_intCast]; decide)]
    rfl

theorem weekAnchor (base n : ℤ) (h0 : 0 ≤ n) (h7 : n < 7) :
    momentSetDay base n - momentSetDay base (n - 6) = 6 ∧
    weekdayOfDay (momentSetDay base n) = n := by
  unfold momentSetDay weekdayOfDay
  constructor
  · omega
  · have hdm := Int.ediv_add_emod (base + 4) 7
    have h : base + (n - (base + 4) % 7) + 4 = n + 7 * ((base + 4) / 7) := by omega
    rw [h, Int.add_mul_emod_self_left]
    omega

theorem formatWeeks_valid (d : ℤ) (p : String) (i : ℕ)
    (hidx : jsIndexOf WEEKDAY_SHORT p = (i : ℤ)) :
    formatWeeks d (some p) =
      .ok (fmtYMD (momentSetDay (d * 7) ((i : ℤ) - 6)) ++ "/" ++
        fmtYMD (momentSetDay (d * 7) (i : ℤ))) := by
  unfold formatWeeks
  split
  · simp_all
  · rename_i heq
    injection heq with h
    subst h
    rw [show jsIndexOf WEEKDAY_SHORT "" = -1 from rfl] at hidx
    omega
  · rename_i p2 heq
    injection heq with h
    subst h
    rw [hidx]
    have : ¬ ((i : ℤ) < 0) := by omega
    simp [this]

/-- C6: for every duration and every supported anchor weekday, the week
formatter renders a `start/end` pair of ISO dates six days apart (seven days
inclusive) whose end date falls on the anchor weekday; in particular
`"W-SUN"` at duration 0 renders `"1969-12-22/1969-12-28"`, a seven-day
range ending on 1969-12-28 — a Sunday (weekday 0). -/
theorem formatWeeks_weekday_range :
    (∀ (d : ℤ) (i : ℕ) (h : i < 7),
      ∃ s e : ℤ,
        formatWeeks d (some (WEEKDAY_SHORT.get ⟨i, h⟩)) =
            .ok (fmtYMD s ++ "/" ++ fmtYMD e) ∧
        e - s = 6 ∧ weekdayOfDay e = (i : ℤ)) ∧
    formatPeriodFromFreq (.big 0) "W-SUN" = .ok "1969-12-22/1969-12-28" ∧
    fmtYMD (-4) = "1969-12-28" ∧ weekdayOfDay (-4) = 0 := by
  refine ⟨?_, rfl, rfl, rfl⟩
  intro d i hi
  refine ⟨momentSetDay (d * 7) ((i : ℤ) - 6), momentSetDay (d * 7) (i : ℤ), ?_,
    (weekAnchor (d * 7) (i : ℤ) (by omega) (by omega)).1,
    (weekAnchor (d * 7) (i : ℤ) (by omega) (by omega)).2⟩
  interval_cases i <;> exact formatWeeks_valid d _ _ rfl

/-- C6 witness: the general statement applied at duration 0 and anchor
weekday index 0 (`"SUN"`). -/
theorem formatWeeks_weekday_range_witness :
    ∃ s e : ℤ,
      formatWeeks 0 (some "SUN") = .ok (fmtYMD s ++ "/" ++ fmtYMD e) ∧
      e - s = 6 ∧ weekdayOfDay e = (0 : ℤ) :=
  formatWeeks_weekday_range.1 0 0 (by decide)

/-- C8: a null or undefined cell formats as the fixed `"<NA>"` marker for
every type descriptor and every field, ahead of every other dispatch
rule. -/
theorem format_null_marker (type? : Option TypeDescr) (field? : Option ArrowField) :
    format .jsNull type? field? = .ok "<NA>" ∧
    format .undef type? field? = .ok "<NA>" := by
  constructor <;> (rw [format.eq_def]; simp [isNullOrUndefined])

/-- C9: a bigint cell of type name `"time"` is converted to a JS number
before `formatTime` is invoked — the dispatcher calls
`formatTime(Number(x), field)` — so the converter's big-integer branch is
never reached from the time path: on a number the converter always divides
in (modelled) floating-point arithmetic, which beyond the safe-integer
range differs from the truncating big-integer branch, as the last conjunct
shows. -/
theorem format_time_bigint_via_number :
    (∀ (b : ℤ) (t : TypeDescr) (f? : Option ArrowField), getTypeName t = "time" →
      format (.big b) (some t) f? = .ok (formatTime (.jsnum (.finite (b : ℚ))) f?)) ∧
    (∀ b : ℤ,
      convertTimestampToSeconds (.jsnum (.finite (b : ℚ))) TimeUnit.NANOSECOND
        = .finite ((b : ℚ) / 1000000000)) ∧
    convertTimestampToSeconds (.jsbig (2 ^ 60 + 1)) TimeUnit.NANOSECOND
      ≠ convertTimestampToSeconds (.jsnum (.finite ((2 ^ 60 + 1 : ℤ) : ℚ)))
          TimeUnit.NANOSECOND := by
  refine ⟨?_, ?_, by decide⟩
  · intro b t f? h
    rw [format.eq_def]
    simp [isNullOrUndefined, isDateObj, cellIsFiniteNumber, isBigIntValue, typeNameOf, h,
      jsToNumber]
  · intro b
    simp [convertTimestampToSeconds, TimeUnit.MILLISECOND, TimeUnit.MICROSECOND,
      TimeUnit.NANOSECOND, JsNum.divNat, ratDivNat_eq]

/-- C9 witness: the dispatch equation applied at an out-of-safe-range
bigint with a concrete `"time"` type. -/
theorem format_time_bigint_via_number_witness :
    format (.big (2 ^ 60)) (some ⟨"time", "object"⟩) none
      = .ok (formatTime (.jsnum (.finite ((2 ^ 60 : ℤ) : ℚ))) none) :=
  format_time_bigint_via_number.1 (2 ^ 60) ⟨"time", "object"⟩ none rfl

/-- C7 counterexample: a finite value whose logical type is `"float64"` but
whose field metadata carries the `pandas.period` extension name is captured
by the period rule, which stringifies it raw (`"1.5"`), not as the grouped
four-decimal rendering (`"1.5000"`) the claim requires for every field
metadata. -/
theorem format_float64_hijacked_by_period_extension :
    format (.num (.finite (mkRat 3 2))) (some ⟨"float64", "float64"⟩)
        (some (.fieldMk [("ARROW:extension:name", "pandas.period")] .otherT)) = .ok "1.5" ∧
    formatFloat (.finite (mkRat 3 2)) = "1.5000" := by
  constructor
  · rw [format.eq_def]; rfl
  · rfl

/-- C7 (amended): for a number value whose type name is `"float64"` or whose
field storage is `Float`, provided no earlier dispatch rule captures the
value (no timestamp storage, no period extension name, and the type name is
not an earlier-dispatched or object/list name), `format` returns
`formatFloat`: grouped thousands with exactly four fractional digits for
finite values (e.g. 1234.5 renders `"1,234.5000"`), raw stringification
(`"NaN"`, `"Infinity"`, `"-Infinity"`) for non-finite ones. -/
theorem format_float64_spec :
    (∀ (n : JsNum) (type? : Option TypeDescr) (field? : Option ArrowField),
      (typeNameOf type? = some "float64" ∨ isFloatFieldType field? = true) →
      floatDispatchClear type? field? →
      format (.num n) type? field? = .ok (formatFloat n)) ∧
    formatFloat (.finite (mkRat 2469 2)) = "1,234.5000" ∧
    formatFloat .nan = "NaN" ∧
    formatFloat .posInf = "Infinity" ∧
    formatFloat .negInf = "-Infinity" := by
  refine ⟨?_, rfl, rfl, rfl, rfl⟩
  intro n t? f? hOr hc
  obtain ⟨hd, hdt, hts, hp, hpe, hi, htd, hdec, hobj, hlist⟩ := hc
  rw [format.eq_def]
  cases n with
  | finite q =>
    rcases hOr with h | h
    · simp [isNullOrUndefined, isDateObj, cellIsFiniteNumber, isBigIntValue, h, hd, hdt,
        hts, hp, hpe, hi, htd, hdec, hobj, hlist, jsToNumber, formatFloat, JsNum.isFinite,
        show optStartsWith (some "float64") "datetime" = false from rfl,
        show optStartsWith (some "float64") "period" = false from rfl,
        show optStartsWith (some "float64") "interval" = false from rfl,
        show optStartsWith (some "float64") "timedelta" = false from rfl]
    · simp [isNullOrUndefined, isDateObj, cellIsFiniteNumber, isBigIntValue, h, hd, hdt,
        hts, hp, hpe, hi, htd, hdec, hobj, hlist, jsToNumber, formatFloat, JsNum.isFinite]
  | nan =>
    simp [isNullOrUndefined, isDateObj, cellIsFiniteNumber, isBigIntValue, hp, hpe, hi,
      htd, hdec, hobj, hlist, jsString, formatFloat, JsNum.isFinite]
  | posInf =>
    simp [isNullOrUndefined, isDateObj, cellIsFiniteNumber, isBigIntValue, hp, hpe, hi,
      htd, hdec, hobj, hlist, jsString, formatFloat, JsNum.isFinite]
  | negInf =>
    simp [isNullOrUndefined, isDateObj, cellIsFiniteNumber, isBigIntValue, hp, hpe, hi,
      htd, hdec, hobj, hlist, jsString, formatFloat, JsNum.isFinite]

/-- C7 witness: the amended dispatch equation applied at 1234.5 with a bare
`"float64"` type. -/
theorem format_float64_spec_witness :
    format (.num (.finite (mkRat 2469 2))) (some ⟨"float64", "float64"⟩) none
      = .ok "1,234.5000" := by
  have h := format_float64_spec.1 (.finite (mkRat 2469 2)) (some ⟨"float64", "float64"⟩)
    none (Or.inl rfl)
    ⟨by decide, by decide, by decide, by decide, by decide, by decide, by decide,
      by decide, by decide, by decide⟩
  exact h.trans (by rfl)

/-- C4: for an interval struct-row cell whose field carries the
`pandas.interval` extension with metadata parsing to string fields
`subtype` and `closed`, `formatInterval` renders
`<lb><left>, <right><rb>` where the left bracket is `[` iff `closed` is
`"left"` or `"both"` (else `(`), the right bracket is `]` iff `closed` is
`"right"` or `"both"` (else `)`), and each bound is formatted by a
recursive `format` call with `subtype` as both components of its logical
type and the corresponding struct child as its field. -/
theorem formatInterval_bracket_spec (st cl : String) (l r : CellValue) (m : String)
    (children : List ArrowField) (j : JVal)
    (hm : jsonParse m = Except.ok j)
    (hsub : jprop j "subtype" = some (JVal.jstr st))
    (hcl : jprop j "closed" = some (JVal.jstr cl)) :
    formatInterval (CellValue.structRow [("left", l), ("right", r)])
        (some (ArrowField.fieldMk
          [("ARROW:extension:name", "pandas.interval"), ("ARROW:extension:metadata", m)]
          (FieldType.structT children))) =
      match format l (some ⟨st, st⟩) (children.get? 0) with
      | .error e => .error e
      | .ok leftInterval =>
        match format r (some ⟨st, st⟩) (children.get? 1) with
        | .error e => .error e
        | .ok rightInterval =>
          .ok ((if cl = "both" ∨ cl = "left" then "[" else "(") ++ leftInterval ++ ", " ++
            rightInterval ++ (if cl = "both" ∨ cl = "right" then "]" else ")")) := by
  have hj : j ≠ JVal.jnull := by
    intro h; subst h; simp [jprop] at hsub
  have hmeta : intervalMeta (some (ArrowField.fieldMk
      [("ARROW:extension:name", "pandas.interval"), ("ARROW:extension:metadata", m)]
      (FieldType.structT children))) = .meta (some st) cl false := by
    simp only [intervalMeta]
    have h1 : metaGet (ArrowField.fieldMk
        [("ARROW:extension:name", "pandas.interval"), ("ARROW:extension:metadata", m)]
        (FieldType.structT children)) "ARROW:extension:name" = some "pandas.interval" := rfl
    have h2 : metaGet (ArrowField.fieldMk
        [("ARROW:extension:name", "pandas.interval"), ("ARROW:extension:metadata", m)]
        (FieldType.structT children)) "ARROW:extension:metadata" = some m := rfl
    rw [h1, h2]
    norm_num
    rw [hm]
    cases j with
    | jnull => exact absurd rfl hj
    | jobj fields => simp only [hsub, hcl]
    | jbool b => simp [jprop] at hsub
    | jnum q => simp [jprop] at hsub
    | jstr s2 => simp [jprop] at hsub
    | jarr es => simp [jprop] at hsub
  rw [formatInterval.eq_def, hmeta]
  simp [intervalBound, lookupCell, fieldChildren, fieldTyp]

/-- C4 witness: the bracket rule applied at metadata
`subtype = "int64"`, `closed = "both"` and bounds `(1, 5)`, giving
`"[1, 5]"`. -/
theorem formatInterval_bracket_spec_witness :
    formatInterval (.structRow [("left", .num (.finite 1)), ("right", .num (.finite 5))])
        (some (.fieldMk
          [("ARROW:extension:name", "pandas.interval"),
           ("ARROW:extension:metadata", "\x7b\"subtype\": \"int64\", \"closed\": \"both\"\x7d")]
          (.structT []))) = .ok "[1, 5]" := by
  have h := formatInterval_bracket_spec "int64" "both"
    (.num (.finite 1)) (.num (.finite 5))
    "\x7b\"subtype\": \"int64\", \"closed\": \"both\"\x7d" []
    (.jobj [("subtype", .jstr "int64"), ("closed", .jstr "both")]) rfl rfl rfl
  rw [h]
  have h1 : format (.num (.finite 1)) (some ⟨"int64", "int64"⟩)
      (([] : List ArrowField).get? 0) = .ok "1" := by
    rw [format.eq_def]; rfl
  have h2 : format (.num (.finite 5)) (some ⟨"int64", "int64"⟩)
      (([] : List ArrowField).get? 1) = .ok "5" := by
    rw [format.eq_def]; rfl
  rw [h1, h2]
  rfl

theorem serializeProp_atomic (repl : JsonReplacer) (v : CellValue)
    (h : isAtomicLeaf v = true) :
    serializeProp repl v = applyReplacer repl v (serializeAtomicKeep v) := by
  cases v <;> simp_all [isAtomicLeaf] <;> rw [serializeProp.eq_def]

theorem serializeMembers_atomic (repl : JsonReplacer)
    (entries : List (String × CellValue)) (h : ∀ p ∈ entries, isAtomicLeaf p.2 = true) :
    serializeMembers repl entries = entries.filterMap (memberRender repl) := by
  induction entries with
  | nil => rw [serializeMembers.eq_def]; rfl
  | cons hd tl ih =>
    obtain ⟨k, v⟩ := hd
    rw [serializeMembers.eq_def]
    dsimp only
    rw [serializeProp_atomic repl v (h ⟨k, v⟩ (by simp))]
    have htl : ∀ p ∈ tl, isAtomicLeaf p.2 = true := fun p hp => h p (by simp [hp])
    cases hr : applyReplacer repl v (serializeAtomicKeep v) with
    | none => simp [ih htl, List.filterMap, memberRender, hr]
    | some s => simp [ih htl, List.filterMap, memberRender, hr]

theorem memberRender_structReplacer (p : String × CellValue)
    (h : isAtomicLeaf p.2 = true) :
    memberRender structReplacer p = structLeafRender p := by
  obtain ⟨k, v⟩ := p
  cases v <;>
    simp_all [isAtomicLeaf, memberRender, applyReplacer, structReplacer, applyToJSON,
      serializeAtomicKeep, structLeafRender, isNullOrUndefined, jsonNum, jsNumToString]

theorem memberRender_bigintReplacer (p : String × CellValue)
    (h : isAtomicLeaf p.2 = true) :
    memberRender bigintReplacer p = plainLeafRender p := by
  obtain ⟨k, v⟩ := p
  cases v <;>
    simp_all [isAtomicLeaf, memberRender, applyReplacer, bigintReplacer, applyToJSON,
      serializeAtomicKeep, plainLeafRender, isNullOrUndefined, jsonNum, jsNumToString]

theorem jsonStringify_structRow (repl : JsonReplacer)
    (entries : List (String × CellValue))
    (hkeep : repl (.structRow entries) = .keep) :
    jsonStringify repl (.structRow entries) =
      some ("\x7b" ++ String.intercalate "," (serializeMembers repl entries) ++ "\x7d") := by
  unfold jsonStringify
  rw [serializeProp.eq_def]
  dsimp only
  simp [applyReplacer, applyToJSON, hkeep]

/-- C10 (amended): for a struct-row cell with atomic leaves,
`formatObject` under a Struct-typed field omits both null and undefined
property leaves and coerces bigint leaves to numbers; under every other
field (including absent metadata) undefined leaves are still omitted —
plain `JSON.stringify` semantics — while null leaves are preserved as JSON
`null` and bigint leaves are likewise coerced. -/
theorem formatObject_leaf_handling :
    (∀ (entries : List (String × CellValue)), (∀ p ∈ entries, isAtomicLeaf p.2 = true) →
      ∀ (md : List (String × String)) (children : List ArrowField),
      formatObject (.structRow entries) (some (.fieldMk md (.structT children))) =
        "\x7b" ++ String.intercalate "," (entries.filterMap structLeafRender) ++ "\x7d") ∧
    (∀ (entries : List (String × CellValue)), (∀ p ∈ entries, isAtomicLeaf p.2 = true) →
      ∀ (field? : Option ArrowField), isStructType field? = false →
      formatObject (.structRow entries) field? =
        "\x7b" ++ String.intercalate "," (entries.filterMap plainLeafRender) ++ "\x7d") := by
  constructor
  · intro entries h md children
    have hs : isStructType (some (.fieldMk md (.structT children))) = true := rfl
    rw [formatObject, if_pos hs,
      jsonStringify_structRow structReplacer entries rfl,
      serializeMembers_atomic structReplacer entries h,
      List.filterMap_congr (fun p hp => memberRender_structReplacer p (h p hp))]
    rfl
  · intro entries h field? hns
    rw [formatObject, if_neg (by simp [hns]),
      jsonStringify_structRow bigintReplacer entries rfl,
      serializeMembers_atomic bigintReplacer entries h,
      List.filterMap_congr (fun p hp => memberRender_bigintReplacer p (h p hp))]
    rfl

/-- C10 witness: the Struct rule applied to the claim's example
`\x7ba: null, b: 1\x7d`, which serializes to `\x7b"b":1\x7d`. -/
theorem formatObject_leaf_handling_witness :
    formatObject (.structRow [("a", .jsNull), ("b", .num (.finite 1))])
        (some (.fieldMk [] (.structT []))) = "\x7b\"b\":1\x7d" := by
  rw [formatObject_leaf_handling.1 [("a", .jsNull), ("b", .num (.finite 1))]
    (by decide) [] []]
  rfl

/-- C10 counterexample: an undefined property leaf is omitted from the JSON
output even when the field type is not a Struct (here: no field at all, and
a plain non-struct field), so omission of undefined leaves is not exclusive
to Struct-typed fields as the claim states. -/
theorem formatObject_undefined_dropped_without_struct :
    formatObject (.structRow [("a", .undef), ("b", .num (.finite 1))]) none
      = "\x7b\"b\":1\x7d" ∧
    formatObject (.structRow [("a", .undef), ("b", .num (.finite 1))])
        (some (.fieldMk [] .otherT)) = "\x7b\"b\":1\x7d" := by
  have h : ∀ p ∈ [("a", CellValue.undef), ("b", CellValue.num (.finite 1))],
      isAtomicLeaf p.2 = true := by decide
  constructor
  · rw [formatObject, if_neg (by simp [isStructType]),
      jsonStringify_structRow bigintReplacer _ rfl,
      serializeMembers_atomic bigintReplacer _ h]
    rfl
  · rw [formatObject, if_neg (by simp [isStructType, fieldTyp]),
      jsonStringify_structRow bigintReplacer _ rfl,
      serializeMembers_atomic bigintReplacer _ h]
    rfl

/-! ## Exception classification (claim C1) -/

theorem jsonParse_error (s : String) (e : JsErr) (h : jsonParse s = .error e) :
    ∃ m, e = .syntaxError m := by
  unfold jsonParse at h
  split at h
  · split at h
    · cases h
    · cases h; exact ⟨_, rfl⟩
  · cases h; exact ⟨_, rfl⟩

theorem formatWeeks_error (d : ℤ) (p? : Option String) (e : JsErr)
    (h : formatWeeks d p? = .error e) : isParamOrMetadataError e := by
  unfold formatWeeks at h
  split at h
  · cases h; exact Or.inl rfl
  · cases h; exact Or.inl rfl
  · dsimp only at h
    split at h
    · cases h; exact Or.inr (Or.inl ⟨_, rfl⟩)
    · cases h

theorem periodTable_error (name : String) (f : ℤ → Option String → Except JsErr String)
    (hf : PERIOD_TYPE_FORMATTERS.lookup name = some f)
    (d : ℤ) (p? : Option String) (e : JsErr) (h : f d p? = .error e) :
    isParamOrMetadataError e := by
  simp only [PERIOD_TYPE_FORMATTERS, List.lookup] at hf
  repeat' split at hf
  all_goals first
    | exact (Option.noConfusion hf)
    | (cases hf; exact formatWeeks_error _ _ _ h)
    | (cases hf; simp at h)

theorem formatPeriodFromFreq_error (v : CellValue) (freq : String) (e : JsErr)
    (h : formatPeriodFromFreq v freq = .error e) : isParamOrMetadataError e := by
  unfold formatPeriodFromFreq at h
  dsimp only at h
  split at h
  · cases h
  · rename_i f hf
    split at h
    · cases h
    · exact periodTable_error _ f hf _ _ _ h

theorem formatPeriod_error (v : CellValue) (f? : Option ArrowField) (e : JsErr)
    (h : formatPeriod v f? = .error e) : isParamOrMetadataError e := by
  unfold formatPeriod at h
  split at h
  · cases h
  · split at h
    · cases h
    · cases h
    · split at h
      · cases h
      · split at h
        · rename_i e2 hp
          cases h
          obtain ⟨m, hm⟩ := jsonParse_error _ _ hp
          exact Or.inr (Or.inr (Or.inl ⟨m, hm⟩))
        · cases h; exact Or.inr (Or.inr (Or.inr ⟨_, rfl⟩))
        · split at h
          · exact formatPeriodFromFreq_error _ _ _ h
          · cases h; exact Or.inr (Or.inr (Or.inr ⟨_, rfl⟩))

theorem intervalMeta_error (f? : Option ArrowField) (e : JsErr)
    (h : intervalMeta f? = .err e) : isParamOrMetadataError e := by
  unfold intervalMeta at h
  split at h
  · cases h
  · split at h
    · cases h
    · split at h
      · cases h; exact Or.inr (Or.inr (Or.inl ⟨_, rfl⟩))
      · split at h
        · rename_i e2 hp
          cases h
          obtain ⟨m, hm⟩ := jsonParse_error _ _ hp
          exact Or.inr (Or.inr (Or.inl ⟨m, hm⟩))
        · cases h; exact Or.inr (Or.inr (Or.inr ⟨_, rfl⟩))
        · dsimp only at h
          split at h <;> cases h

theorem formatInterval_error_aux (x : CellValue) (f? : Option ArrowField) (e : JsErr)
    (ih : ∀ (y : CellValue) (t? : Option TypeDescr) (g? : Option ArrowField) (e2 : JsErr),
      sizeOf y < sizeOf x → format y t? g? = .error e2 → isParamOrMetadataError e2)
    (h : formatInterval x f? = .error e) : isParamOrMetadataError e := by
  rw [formatInterval.eq_def] at h
  split at h
  · cases h
  · rename_i e2 hmeta
    cases h
    exact intervalMeta_error _ _ hmeta
  · rename_i subtype? closed bad hmeta
    dsimp only at h
    cases x with
    | structRow entries =>
      dsimp only at h
      split at h
      · cases h
        exact Or.inr (Or.inr (Or.inr ⟨_, rfl⟩))
      · split at h
        · rename_i e2 hfl
          cases h
          exact ih _ _ _ _ (intervalBound_sizeOf_lt entries "left") hfl
        · rename_i lstr hfl
          split at h
          · rename_i e2 hfr
            cases h
            exact ih _ _ _ _ (intervalBound_sizeOf_lt entries "right") hfr
          · cases h
    | jsNull => dsimp only at h; cases h; exact Or.inr (Or.inr (Or.inr ⟨_, rfl⟩))
    | undef => dsimp only at h; cases h; exact Or.inr (Or.inr (Or.inr ⟨_, rfl⟩))
    | num n => dsimp only at h; cases h; exact Or.inr (Or.inr (Or.inr ⟨_, rfl⟩))
    | big b => dsimp only at h; cases h; exact Or.inr (Or.inr (Or.inr ⟨_, rfl⟩))
    | str s => dsimp only at h; cases h; exact Or.inr (Or.inr (Or.inr ⟨_, rfl⟩))
    | boolV b => dsimp only at h; cases h; exact Or.inr (Or.inr (Or.inr ⟨_, rfl⟩))
    | dateObj ms => dsimp only at h; cases h; exact Or.inr (Or.inr (Or.inr ⟨_, rfl⟩))
    | decimalBuf ws => dsimp only at h; cases h; exact Or.inr (Or.inr (Or.inr ⟨_, rfl⟩))
    | arr elems => dsimp only at h; cases h; exact Or.inr (Or.inr (Or.inr ⟨_, rfl⟩))

theorem format_error_aux :
    ∀ (n : ℕ) (x : CellValue) (t? : Option TypeDescr) (f? : Option ArrowField) (e : JsErr),
      sizeOf x ≤ n → format x t? f? = .error e → isParamOrMetadataError e := by
  intro n
  induction n with
  | zero =>
    intro x t f e hs h
    cases x <;> (simp at hs) <;> omega
  | succ n ih =>
    intro x t f e hs h
    rw [format.eq_def] at h
    dsimp only at h
    repeat' split at h
    all_goals first
      | cases h
      | exact formatPeriod_error _ _ _ h
      | exact formatInterval_error_aux _ _ _
          (fun y t2 g2 e2 hy hf => ih y t2 g2 e2 (by omega) hf) h

/-- C1 (amended): the engine absorbs failures into a fallback string plus a
diagnostic on every path except the ones the claim's parenthetical names,
which do throw — week-period formatting with a missing or invalid weekday
parameter, and period/interval formatting whose present extension metadata
is not parsable as JSON or has the wrong shape (plus interval formatting of
a non-struct cell); every exception `format` can raise is one of those
parameter/metadata failures. -/
theorem format_exceptions_are_param_or_metadata (x : CellValue)
    (type? : Option TypeDescr) (field? : Option ArrowField) (e : JsErr)
    (h : format x type? field? = .error e) : isParamOrMetadataError e :=
  format_error_aux (sizeOf x) x type? field? e (le_refl _) h

/-- C1 witness: the classification applied to a concrete raised
exception — the period path with frequency `"W"` and no weekday
parameter. -/
theorem format_exceptions_are_param_or_metadata_witness :
    isParamOrMetadataError (.error "Frequency \x22W\x22 requires parameter") :=
  format_exceptions_are_param_or_metadata (.big 5) (some ⟨"object", "period[W]"⟩)
    (some (.fieldMk [("ARROW:extension:name", "pandas.period"),
      ("ARROW:extension:metadata", "\x7b\"freq\": \"W\"\x7d")] .otherT))
    (.error "Frequency \x22W\x22 requires parameter")
    (by rw [format.eq_def]; rfl)

/-- C1 counterexample: the dispatcher does raise exceptions — a period cell
with supported base frequency `"W"` but no weekday parameter throws the
week-parameter `Error`, and a period cell whose extension-metadata string
is present but not parsable as JSON throws a `SyntaxError` — so `format`
does not return a string for every input value, type descriptor and field
metadata as the claim states. -/
theorem format_throws_on_week_and_bad_metadata :
    format (.big 5) (some ⟨"object", "period[W]"⟩)
        (some (.fieldMk [("ARROW:extension:name", "pandas.period"),
          ("ARROW:extension:metadata", "\x7b\"freq\": \"W\"\x7d")] .otherT)) =
      .error (.error "Frequency \x22W\x22 requires parameter") ∧
    format (.big 5) (some ⟨"object", "period[W]"⟩)
        (some (.fieldMk [("ARROW:extension:name", "pandas.period"),
          ("ARROW:extension:metadata", "not json!")] .otherT)) =
      .error (.syntaxError "Unexpected token in JSON") := by
  constructor <;> (rw [format.eq_def]; rfl)
